import Mathlib

/-
Shallow embedding of arch/arm/mach-msm/acpuclock-8960.c (MSM8960 DVFS
controller).  Pure data (frequency tables, voltage calculations) is
translated directly; the stateful transition engine is modelled as explicit
state passing over a record of per-core domain state, with backend calls
(voltage rails, bus bandwidth, clock register writes) recorded as an event
trace and the rail backend itself abstracted as a function returning an
error code (0 = success), matching rpm_vreg_set_voltage/regulator_set_voltage.
Logging, footprint writes, locks and hardware delays are not modelled
(the embedding is sequential, one operation at a time).
-/

set_option maxRecDepth 4000

namespace Acpu8960

/-- Clock source id PLL_8 (see "Source IDs" in the C file). -/
def PLL_8 : Int := 0

/-- Clock source id HFPLL. -/
def HFPLL : Int := -1

/-- Clock source id QSB. -/
def QSB : Int := -2

/-- Primary mux select: secondary source. -/
def PRI_SRC_SEL_SEC_SRC : Nat := 0

/-- Primary mux select: HFPLL. -/
def PRI_SRC_SEL_HFPLL : Nat := 1

/-- Primary mux select: HFPLL div 2. -/
def PRI_SRC_SEL_HFPLL_DIV2 : Nat := 2

/-- Secondary mux select: QSB. -/
def SEC_SRC_SEL_QSB : Nat := 0

/-- Secondary mux select: AUX. -/
def SEC_SRC_SEL_AUX : Nat := 2

/-- Standby frequency sentinel (kHz). -/
def STBY_KHZ : Nat := 1

/-- Maximum core voltage in uV. -/
def MAX_VDD_SC : Nat := 1350000

/-- Minimum core voltage in uV. -/
def MIN_VDD_SC : Nat := 400000

/-- HFPLL nominal vdd floor in uV. -/
def HFPLL_NOMINAL_VDD : Nat := 1100000

/-- HFPLL low vdd floor in uV. -/
def HFPLL_LOW_VDD : Nat := 800000

/-- Threshold on pll_l_val below or at which the low vdd floor applies. -/
def HFPLL_LOW_VDD_PLL_L_MAX : Nat := 0x28

/-- Linux EINVAL error number. -/
def EINVAL : Int := 22

/-- Number of possible cpus on this dual-core SoC (num_possible_cpus()). -/
def num_possible_cpus : Nat := 2

/-- Frequency used when a core is hot-unplugged (HOT_UNPLUG_KHZ). -/
def HOT_UNPLUG_KHZ : Nat := STBY_KHZ

/-- enum setrate_reason. -/
inductive Reason
  | SETRATE_CPUFREQ
  | SETRATE_SWFI
  | SETRATE_PC
  | SETRATE_HOTPLUG
deriving DecidableEq, Repr

/-- The three per-core supply rails (VREG_CORE / VREG_MEM / VREG_DIG). -/
inductive Rail
  | MEM
  | DIG
  | CORE
deriving DecidableEq, Repr

/-- struct core_speed. -/
structure CoreSpeed where
  khz : Nat
  src : Int
  pri_src_sel : Nat
  sec_src_sel : Nat
  pll_l_val : Nat
deriving DecidableEq, Repr

/-- struct l2_level. -/
structure L2Level where
  speed : CoreSpeed
  vdd_dig : Nat
  vdd_mem : Nat
  bw_level : Nat
deriving DecidableEq, Repr

/-- struct acpu_level; the l2_level pointer is modelled as an index into
l2_freq_tbl_8960_kraitv2 (pointer order on table entries equals index order). -/
structure AcpuLevel where
  use_for_scaling : Bool
  speed : CoreSpeed
  l2_idx : Nat
  vdd_core : Nat
deriving DecidableEq, Repr

/-- Cached current voltage of the three rails of one core (vreg[..].cur_vdd). -/
structure VddState where
  mem : Nat
  dig : Nat
  core : Nat
deriving DecidableEq, Repr

/-- Primary/secondary mux selection of one clock domain. -/
structure MuxState where
  pri : Nat
  sec : Nat
deriving DecidableEq, Repr

/-- Observable backend side effects of a transition: a voltage-rail backend
call (rpm_vreg_set_voltage / regulator_set_voltage), a clock-domain speed
switch (set_speed actually reprogramming a domain), or a bus bandwidth
request (msm_bus_scale_client_update_request). -/
inductive Event
  | rail (r : Rail) (uv : Nat)
  | clk (dom : Nat) (khz : Nat)
  | bus (level : Nat)
deriving DecidableEq, Repr

/-- l2_freq_tbl_8960_kraitv2 (the only L2 table in the file). -/
def l2_freq_tbl_8960_kraitv2 : List L2Level := [
  ⟨⟨STBY_KHZ, QSB,   0, 0, 0x00⟩, 1050000, 1050000, 0⟩,
  ⟨⟨  192000, PLL_8, 0, 2, 0x00⟩, 1050000, 1050000, 1⟩,
  ⟨⟨  384000, HFPLL, 2, 0, 0x20⟩, 1050000, 1050000, 2⟩,
  ⟨⟨  486000, HFPLL, 2, 0, 0x24⟩, 1050000, 1050000, 2⟩,
  ⟨⟨  540000, HFPLL, 2, 0, 0x28⟩, 1050000, 1050000, 2⟩,
  ⟨⟨  594000, HFPLL, 1, 0, 0x16⟩, 1050000, 1050000, 2⟩,
  ⟨⟨  648000, HFPLL, 1, 0, 0x18⟩, 1050000, 1050000, 4⟩,
  ⟨⟨  702000, HFPLL, 1, 0, 0x1A⟩, 1050000, 1050000, 4⟩,
  ⟨⟨  756000, HFPLL, 1, 0, 0x1C⟩, 1150000, 1150000, 4⟩,
  ⟨⟨  810000, HFPLL, 1, 0, 0x1E⟩, 1150000, 1150000, 4⟩,
  ⟨⟨  864000, HFPLL, 1, 0, 0x20⟩, 1150000, 1150000, 4⟩,
  ⟨⟨  918000, HFPLL, 1, 0, 0x22⟩, 1150000, 1150000, 6⟩,
  ⟨⟨  972000, HFPLL, 1, 0, 0x24⟩, 1150000, 1150000, 6⟩,
  ⟨⟨ 1026000, HFPLL, 1, 0, 0x26⟩, 1150000, 1150000, 6⟩,
  ⟨⟨ 1080000, HFPLL, 1, 0, 0x28⟩, 1150000, 1150000, 6⟩,
  ⟨⟨ 1134000, HFPLL, 1, 0, 0x2A⟩, 1150000, 1150000, 6⟩,
  ⟨⟨ 1188000, HFPLL, 1, 0, 0x2C⟩, 1150000, 1150000, 6⟩,
  ⟨⟨ 1242000, HFPLL, 1, 0, 0x2E⟩, 1150000, 1150000, 6⟩,
  ⟨⟨ 1350000, HFPLL, 1, 0, 0x30⟩, 1150000, 1150000, 6⟩,
  ⟨⟨ 1458000, HFPLL, 1, 0, 0x32⟩, 1150000, 1150000, 6⟩,
  ⟨⟨ 1512000, HFPLL, 1, 0, 0x34⟩, 1150000, 1150000, 7⟩,
  ⟨⟨ 1674000, HFPLL, 1, 0, 0x36⟩, 1150000, 1150000, 7⟩,
  ⟨⟨ 1728000, HFPLL, 1, 0, 0x36⟩, 1150000, 1150000, 7⟩]

/-- acpu_freq_tbl_8960_fusion_slow, sentinel entry omitted (a list ends where
the sentinel stood). -/
def acpu_freq_tbl_8960_fusion_slow : List AcpuLevel := [
  ⟨false, ⟨STBY_KHZ, QSB,   0, 0, 0x00⟩, 0,   850000⟩,
  ⟨true,  ⟨  192000, PLL_8, 0, 2, 0x00⟩, 1,   900000⟩,
  ⟨true,  ⟨  384000, HFPLL, 2, 0, 0x20⟩, 7,   900000⟩,
  ⟨true,  ⟨  486000, HFPLL, 2, 0, 0x24⟩, 7,   950000⟩,
  ⟨false, ⟨  540000, HFPLL, 2, 0, 0x28⟩, 7,  1000000⟩,
  ⟨true,  ⟨  594000, HFPLL, 1, 0, 0x16⟩, 7,  1000000⟩,
  ⟨false, ⟨  648000, HFPLL, 1, 0, 0x18⟩, 7,  1025000⟩,
  ⟨true,  ⟨  702000, HFPLL, 1, 0, 0x1A⟩, 7,  1025000⟩,
  ⟨false, ⟨  756000, HFPLL, 1, 0, 0x1C⟩, 7,  1075000⟩,
  ⟨true,  ⟨  810000, HFPLL, 1, 0, 0x1E⟩, 7,  1075000⟩,
  ⟨false, ⟨  864000, HFPLL, 1, 0, 0x20⟩, 7,  1100000⟩,
  ⟨true,  ⟨  918000, HFPLL, 1, 0, 0x22⟩, 7,  1100000⟩,
  ⟨false, ⟨  972000, HFPLL, 1, 0, 0x24⟩, 7,  1125000⟩,
  ⟨true,  ⟨ 1026000, HFPLL, 1, 0, 0x26⟩, 7,  1125000⟩,
  ⟨false, ⟨ 1080000, HFPLL, 1, 0, 0x28⟩, 16, 1175000⟩,
  ⟨true,  ⟨ 1134000, HFPLL, 1, 0, 0x2A⟩, 16, 1175000⟩,
  ⟨false, ⟨ 1188000, HFPLL, 1, 0, 0x2C⟩, 16, 1200000⟩,
  ⟨true,  ⟨ 1242000, HFPLL, 1, 0, 0x2E⟩, 16, 1200000⟩,
  ⟨false, ⟨ 1296000, HFPLL, 1, 0, 0x30⟩, 16, 1225000⟩,
  ⟨true,  ⟨ 1350000, HFPLL, 1, 0, 0x32⟩, 16, 1225000⟩,
  ⟨false, ⟨ 1404000, HFPLL, 1, 0, 0x34⟩, 16, 1237500⟩,
  ⟨true,  ⟨ 1458000, HFPLL, 1, 0, 0x36⟩, 16, 1237500⟩,
  ⟨true,  ⟨ 1512000, HFPLL, 1, 0, 0x38⟩, 18, 1250000⟩,
  ⟨true,  ⟨ 1674000, HFPLL, 1, 0, 0x3A⟩, 18, 1275000⟩,
  ⟨true,  ⟨ 1728000, HFPLL, 1, 0, 0x3C⟩, 19, 1300000⟩,
  ⟨true,  ⟨ 1809000, HFPLL, 1, 0, 0x3E⟩, 19, 1325000⟩,
  ⟨true,  ⟨ 1890000, HFPLL, 1, 0, 0x40⟩, 20, 1350000⟩,
  ⟨true,  ⟨ 1998000, HFPLL, 1, 0, 0x40⟩, 21, 1350000⟩,
  ⟨true,  ⟨ 2160000, HFPLL, 1, 0, 0x40⟩, 21, 1350000⟩]

/-- acpu_freq_tbl_8960_fusion_nom, sentinel omitted. -/
def acpu_freq_tbl_8960_fusion_nom : List AcpuLevel := [
  ⟨false, ⟨STBY_KHZ, QSB,   0, 0, 0x00⟩, 0,   800000⟩,
  ⟨true,  ⟨  192000, PLL_8, 0, 2, 0x00⟩, 1,   800000⟩,
  ⟨true,  ⟨  384000, HFPLL, 2, 0, 0x20⟩, 7,   850000⟩,
  ⟨true,  ⟨  486000, HFPLL, 2, 0, 0x24⟩, 7,   900000⟩,
  ⟨false, ⟨  540000, HFPLL, 2, 0, 0x28⟩, 7,   950000⟩,
  ⟨true,  ⟨  594000, HFPLL, 1, 0, 0x16⟩, 7,   950000⟩,
  ⟨false, ⟨  648000, HFPLL, 1, 0, 0x18⟩, 7,   975000⟩,
  ⟨true,  ⟨  702000, HFPLL, 1, 0, 0x1A⟩, 7,   975000⟩,
  ⟨false, ⟨  756000, HFPLL, 1, 0, 0x1C⟩, 7,  1025000⟩,
  ⟨true,  ⟨  810000, HFPLL, 1, 0, 0x1E⟩, 7,  1025000⟩,
  ⟨false, ⟨  864000, HFPLL, 1, 0, 0x20⟩, 7,  1050000⟩,
  ⟨true,  ⟨  918000, HFPLL, 1, 0, 0x22⟩, 7,  1050000⟩,
  ⟨false, ⟨  972000, HFPLL, 1, 0, 0x24⟩, 7,  1075000⟩,
  ⟨true,  ⟨ 1026000, HFPLL, 1, 0, 0x26⟩, 7,  1075000⟩,
  ⟨false, ⟨ 1080000, HFPLL, 1, 0, 0x28⟩, 16, 1100000⟩,
  ⟨true,  ⟨ 1134000, HFPLL, 1, 0, 0x2A⟩, 16, 1125000⟩,
  ⟨false, ⟨ 1188000, HFPLL, 1, 0, 0x2C⟩, 16, 1125000⟩,
  ⟨true,  ⟨ 1242000, HFPLL, 1, 0, 0x2E⟩, 16, 1150000⟩,
  ⟨false, ⟨ 1296000, HFPLL, 1, 0, 0x30⟩, 16, 1150000⟩,
  ⟨true,  ⟨ 1350000, HFPLL, 1, 0, 0x32⟩, 16, 1175000⟩,
  ⟨false, ⟨ 1404000, HFPLL, 1, 0, 0x34⟩, 16, 1175000⟩,
  ⟨true,  ⟨ 1458000, HFPLL, 1, 0, 0x36⟩, 16, 1187500⟩,
  ⟨true,  ⟨ 1512000, HFPLL, 1, 0, 0x38⟩, 18, 1200000⟩,
  ⟨true,  ⟨ 1674000, HFPLL, 1, 0, 0x3A⟩, 18, 1225000⟩,
  ⟨true,  ⟨ 1728000, HFPLL, 1, 0, 0x3C⟩, 19, 1250000⟩,
  ⟨true,  ⟨ 1809000, HFPLL, 1, 0, 0x3E⟩, 19, 1275000⟩,
  ⟨true,  ⟨ 1890000, HFPLL, 1, 0, 0x40⟩, 19, 1300000⟩,
  ⟨true,  ⟨ 1998000, HFPLL, 1, 0, 0x40⟩, 21, 1325000⟩,
  ⟨true,  ⟨ 2160000, HFPLL, 1, 0, 0x40⟩, 21, 1350000⟩]

/-- acpu_freq_tbl_8960_fusion_fast, sentinel omitted. -/
def acpu_freq_tbl_8960_fusion_fast : List AcpuLevel := [
  ⟨false, ⟨STBY_KHZ, QSB,   0, 0, 0x00⟩, 0,   800000⟩,
  ⟨true,  ⟨  192000, PLL_8, 0, 2, 0x00⟩, 1,   800000⟩,
  ⟨true,  ⟨  384000, HFPLL, 2, 0, 0x20⟩, 7,   800000⟩,
  ⟨true,  ⟨  486000, HFPLL, 2, 0, 0x24⟩, 7,   850000⟩,
  ⟨false, ⟨  540000, HFPLL, 2, 0, 0x28⟩, 7,   900000⟩,
  ⟨true,  ⟨  594000, HFPLL, 1, 0, 0x16⟩, 7,   900000⟩,
  ⟨false, ⟨  648000, HFPLL, 1, 0, 0x18⟩, 7,   925000⟩,
  ⟨true,  ⟨  702000, HFPLL, 1, 0, 0x1A⟩, 7,   925000⟩,
  ⟨false, ⟨  756000, HFPLL, 1, 0, 0x1C⟩, 7,   975000⟩,
  ⟨true,  ⟨  810000, HFPLL, 1, 0, 0x1E⟩, 7,   975000⟩,
  ⟨false, ⟨  864000, HFPLL, 1, 0, 0x20⟩, 7,  1000000⟩,
  ⟨true,  ⟨  918000, HFPLL, 1, 0, 0x22⟩, 7,  1000000⟩,
  ⟨false, ⟨  972000, HFPLL, 1, 0, 0x24⟩, 7,  1025000⟩,
  ⟨true,  ⟨ 1026000, HFPLL, 1, 0, 0x26⟩, 7,  1025000⟩,
  ⟨false, ⟨ 1080000, HFPLL, 1, 0, 0x28⟩, 16, 1075000⟩,
  ⟨true,  ⟨ 1134000, HFPLL, 1, 0, 0x2A⟩, 16, 1075000⟩,
  ⟨false, ⟨ 1188000, HFPLL, 1, 0, 0x2C⟩, 16, 1100000⟩,
  ⟨true,  ⟨ 1242000, HFPLL, 1, 0, 0x2E⟩, 16, 1100000⟩,
  ⟨false, ⟨ 1296000, HFPLL, 1, 0, 0x30⟩, 16, 1125000⟩,
  ⟨true,  ⟨ 1350000, HFPLL, 1, 0, 0x32⟩, 16, 1125000⟩,
  ⟨false, ⟨ 1404000, HFPLL, 1, 0, 0x34⟩, 16, 1125000⟩,
  ⟨true,  ⟨ 1458000, HFPLL, 1, 0, 0x36⟩, 16, 1137500⟩,
  ⟨true,  ⟨ 1512000, HFPLL, 1, 0, 0x38⟩, 18, 1150000⟩,
  ⟨true,  ⟨ 1674000, HFPLL, 1, 0, 0x3A⟩, 18, 1175000⟩,
  ⟨true,  ⟨ 1728000, HFPLL, 1, 0, 0x3C⟩, 19, 1200000⟩,
  ⟨true,  ⟨ 1809000, HFPLL, 1, 0, 0x3E⟩, 19, 1250000⟩,
  ⟨true,  ⟨ 1890000, HFPLL, 1, 0, 0x40⟩, 19, 1275000⟩,
  ⟨true,  ⟨ 1998000, HFPLL, 1, 0, 0x40⟩, 21, 1300000⟩,
  ⟨true,  ⟨ 2160000, HFPLL, 1, 0, 0x40⟩, 21, 1325000⟩]

/-- Lookup into the L2 table (dereference of an l2_level pointer). -/
def l2get (i : Nat) : L2Level :=
  l2_freq_tbl_8960_kraitv2.getD i ⟨⟨STBY_KHZ, QSB, 0, 0, 0x00⟩, 1050000, 1050000, 0⟩

/-- Pointwise update of a Nat-indexed map (a write into a per-cpu array). -/
def upd {α : Type} (f : Nat → α) (i : Nat) (v : α) : Nat → α :=
  fun j => if j = i then v else f j

/-- compute_l2_level: record the core's vote (sc->l2_vote = vote_l) and fold
max over the votes of all present cpus, starting from l2_freq_tbl (index 0,
the lowest level).  Votes are table indices; pointer max on entries of one
table is max on indices. -/
def compute_l2_level (votes : Nat → Nat) (present : List Nat) (cpu : Nat)
    (vote_l : Nat) : (Nat → Nat) × Nat :=
  let votes' := upd votes cpu vote_l
  (votes', present.foldl (fun new_l c => max new_l (votes' c)) 0)

/-- ARRAY_SIZE(bw_level_tbl). -/
def bw_level_tbl_size : Nat := 11

/-- set_bus_bw: bounds-check the level, then issue the bandwidth backend
call (a failing backend is only logged, so the model records the call). -/
def set_bus_bw (bw : Nat) : List Event :=
  if bw ≥ bw_level_tbl_size then [] else [Event.bus bw]

/-- Result of set_speed: the domain's new current_speed, its mux selections,
and the reprogramming side effect (empty for the early-return no-op). -/
structure SpeedOut where
  spd : CoreSpeed
  mux : MuxState
  ev : List Event
deriving Repr

/-- set_speed: per-domain clock-source switch.  Each branch is the C branch
on (strt_s->src, tgt_s->src); the mux fields hold the final selections after
the branch's register writes; `isL2` models `sc == &scalable[L2]`. -/
def set_speed (dom : Nat) (strt : CoreSpeed) (mux : MuxState) (tgt : CoreSpeed)
    (reason : Reason) (isL2 : Bool) : SpeedOut :=
  if tgt = strt then ⟨strt, mux, []⟩
  else if strt.src = HFPLL ∧ tgt.src = HFPLL then
    ⟨tgt, ⟨tgt.pri_src_sel, SEC_SRC_SEL_AUX⟩, [Event.clk dom tgt.khz]⟩
  else if strt.src = HFPLL ∧ tgt.src ≠ HFPLL then
    if reason ≠ Reason.SETRATE_HOTPLUG ∨ isL2 = true then
      ⟨tgt, ⟨tgt.pri_src_sel, tgt.sec_src_sel⟩, [Event.clk dom tgt.khz]⟩
    else ⟨tgt, mux, [Event.clk dom tgt.khz]⟩
  else if strt.src ≠ HFPLL ∧ tgt.src = HFPLL then
    if reason ≠ Reason.SETRATE_HOTPLUG ∨ isL2 = true then
      ⟨tgt, ⟨tgt.pri_src_sel, mux.sec⟩, [Event.clk dom tgt.khz]⟩
    else ⟨tgt, mux, [Event.clk dom tgt.khz]⟩
  else
    if reason ≠ Reason.SETRATE_HOTPLUG ∨ isL2 = true then
      ⟨tgt, ⟨mux.pri, tgt.sec_src_sel⟩, [Event.clk dom tgt.khz]⟩
    else ⟨tgt, mux, [Event.clk dom tgt.khz]⟩

/-- Result of increase_vdd: new rail cache, issued backend calls, return code. -/
structure RailOut where
  vs : VddState
  calls : List (Rail × Nat)
  rc : Int
deriving Repr

/-- Result of decrease_vdd: new rail cache and issued backend calls.  The C
function returns void, so there is no return-code field. -/
structure DecOut where
  vs : VddState
  calls : List (Rail × Nat)
deriving Repr

/-- Core-rail step of increase_vdd (skipped on the hotplug path). -/
def inc_core_step (bk : Rail → Nat → Int) (vs : VddState)
    (calls : List (Rail × Nat)) (vdd_core : Nat) (reason : Reason) : RailOut :=
  if vdd_core > vs.core ∧ reason ≠ Reason.SETRATE_HOTPLUG then
    if bk Rail.CORE vdd_core ≠ 0 then
      ⟨vs, calls ++ [(Rail.CORE, vdd_core)], bk Rail.CORE vdd_core⟩
    else
      ⟨{ vs with core := vdd_core }, calls ++ [(Rail.CORE, vdd_core)], 0⟩
  else ⟨vs, calls, 0⟩

/-- vdd_dig step of increase_vdd; on success continue to the core-rail step. -/
def inc_dig_step (bk : Rail → Nat → Int) (vs : VddState)
    (calls : List (Rail × Nat)) (vdd_core vdd_dig : Nat) (reason : Reason) :
    RailOut :=
  if vdd_dig > vs.dig then
    if bk Rail.DIG vdd_dig ≠ 0 then
      ⟨vs, calls ++ [(Rail.DIG, vdd_dig)], bk Rail.DIG vdd_dig⟩
    else
      inc_core_step bk { vs with dig := vdd_dig }
        (calls ++ [(Rail.DIG, vdd_dig)]) vdd_core reason
  else inc_core_step bk vs calls vdd_core reason

/-- increase_vdd: raise vdd_mem, then vdd_dig, then vdd_core; a failing
backend call aborts the remaining steps and its error code is returned. -/
def increase_vdd (bk : Rail → Nat → Int) (vs : VddState)
    (vdd_core vdd_mem vdd_dig : Nat) (reason : Reason) : RailOut :=
  if vdd_mem > vs.mem then
    if bk Rail.MEM vdd_mem ≠ 0 then
      ⟨vs, [(Rail.MEM, vdd_mem)], bk Rail.MEM vdd_mem⟩
    else
      inc_dig_step bk { vs with mem := vdd_mem }
        [(Rail.MEM, vdd_mem)] vdd_core vdd_dig reason
  else inc_dig_step bk vs [] vdd_core vdd_dig reason

/-- vdd_mem step of decrease_vdd (last step). -/
def dec_mem_step (bk : Rail → Nat → Int) (vs : VddState)
    (calls : List (Rail × Nat)) (vdd_mem : Nat) : DecOut :=
  if vdd_mem < vs.mem then
    if bk Rail.MEM vdd_mem ≠ 0 then ⟨vs, calls ++ [(Rail.MEM, vdd_mem)]⟩
    else ⟨{ vs with mem := vdd_mem }, calls ++ [(Rail.MEM, vdd_mem)]⟩
  else ⟨vs, calls⟩

/-- vdd_dig step of decrease_vdd; a failure returns without the mem step. -/
def dec_dig_step (bk : Rail → Nat → Int) (vs : VddState)
    (calls : List (Rail × Nat)) (vdd_dig vdd_mem : Nat) : DecOut :=
  if vdd_dig < vs.dig then
    if bk Rail.DIG vdd_dig ≠ 0 then ⟨vs, calls ++ [(Rail.DIG, vdd_dig)]⟩
    else dec_mem_step bk { vs with dig := vdd_dig }
      (calls ++ [(Rail.DIG, vdd_dig)]) vdd_mem
  else dec_mem_step bk vs calls vdd_mem

/-- decrease_vdd: lower vdd_core (skipped for hotplug), then vdd_dig, then
vdd_mem; a failing backend call aborts the remaining steps, but the function
returns void, so no error is reported. -/
def decrease_vdd (bk : Rail → Nat → Int) (vs : VddState)
    (vdd_core vdd_mem vdd_dig : Nat) (reason : Reason) : DecOut :=
  if vdd_core < vs.core ∧ reason ≠ Reason.SETRATE_HOTPLUG then
    if bk Rail.CORE vdd_core ≠ 0 then ⟨vs, [(Rail.CORE, vdd_core)]⟩
    else dec_dig_step bk { vs with core := vdd_core }
      [(Rail.CORE, vdd_core)] vdd_dig vdd_mem
  else dec_dig_step bk vs [] vdd_dig vdd_mem

/-- calculate_vdd_mem. -/
def calculate_vdd_mem (tgt : AcpuLevel) : Nat :=
  (l2get tgt.l2_idx).vdd_mem

/-- calculate_vdd_dig. -/
def calculate_vdd_dig (tgt : AcpuLevel) : Nat :=
  let pll_vdd_dig : Nat :=
    if (l2get tgt.l2_idx).speed.src ≠ HFPLL then 0
    else if (l2get tgt.l2_idx).speed.pll_l_val > HFPLL_LOW_VDD_PLL_L_MAX then
      HFPLL_NOMINAL_VDD
    else HFPLL_LOW_VDD
  max (l2get tgt.l2_idx).vdd_dig pll_vdd_dig

/-- calculate_vdd_core. -/
def calculate_vdd_core (tgt : AcpuLevel) : Nat :=
  let pll_vdd_core : Nat :=
    if tgt.speed.src ≠ HFPLL then 0
    else if tgt.speed.pll_l_val > HFPLL_LOW_VDD_PLL_L_MAX then HFPLL_NOMINAL_VDD
    else HFPLL_LOW_VDD
  max tgt.vdd_core pll_vdd_core

/-- The mutable driver state: per-cpu current speed, mux selections, rail
voltage caches, L2 votes and first_set_call flags, plus the shared L2
domain's speed and mux.  `present` models cpu_present_mask. -/
structure SysState where
  present : List Nat
  cpuSpeed : Nat → CoreSpeed
  cpuMux : Nat → MuxState
  l2CurSpeed : CoreSpeed
  l2Mux : MuxState
  l2_vote : Nat → Nat
  vdd : Nat → VddState
  first_set_call : Nat → Bool

/-- acpuclk_8960_get_rate. -/
def acpuclk_8960_get_rate (st : SysState) (cpu : Nat) : Nat :=
  (st.cpuSpeed cpu).khz

/-- The conditional voltage-increase step of acpuclk_8960_set_rate: run
increase_vdd only for the cpufreq and hotplug reasons. -/
def set_rate_inc (bk : Rail → Nat → Int) (st : SysState) (cpu : Nat)
    (reason : Reason) (tgt : AcpuLevel) : RailOut :=
  if reason = Reason.SETRATE_CPUFREQ ∨ reason = Reason.SETRATE_HOTPLUG then
    increase_vdd bk (st.vdd cpu) (calculate_vdd_core tgt)
      (calculate_vdd_mem tgt) (calculate_vdd_dig tgt) reason
  else ⟨st.vdd cpu, [], 0⟩

/-- Body of acpuclk_8960_set_rate after the target level has been resolved:
voltage calculation, conditional increase_vdd, per-cpu set_speed, L2 vote and
L2 set_speed, then (unless power collapse or SWFI) bus bandwidth request,
decrease_vdd and clearing of first_set_call. -/
def set_rate_body (bk : Rail → Nat → Int) (st : SysState) (cpu : Nat)
    (reason : Reason) (tgt : AcpuLevel) : SysState × List Event × Int :=
  let vdd_mem := calculate_vdd_mem tgt
  let vdd_dig := calculate_vdd_dig tgt
  let vdd_core := calculate_vdd_core tgt
  let inc := set_rate_inc bk st cpu reason tgt
  let st1 := { st with vdd := upd st.vdd cpu inc.vs }
  let ev0 := inc.calls.map fun c => Event.rail c.1 c.2
  if inc.rc ≠ 0 then (st1, ev0, inc.rc)
  else
    let so := set_speed cpu (st1.cpuSpeed cpu) (st1.cpuMux cpu) tgt.speed reason false
    let st2 := { st1 with cpuSpeed := upd st1.cpuSpeed cpu so.spd,
                          cpuMux := upd st1.cpuMux cpu so.mux }
    let cl := compute_l2_level st2.l2_vote st2.present cpu tgt.l2_idx
    let st3 := { st2 with l2_vote := cl.1 }
    let tgt_l2_l := l2get cl.2
    let lo := set_speed 4 st3.l2CurSpeed st3.l2Mux tgt_l2_l.speed reason true
    let st4 := { st3 with l2CurSpeed := lo.spd, l2Mux := lo.mux }
    if reason = Reason.SETRATE_PC ∨ reason = Reason.SETRATE_SWFI then
      (st4, ev0 ++ so.ev ++ lo.ev, 0)
    else
      let bev := set_bus_bw tgt_l2_l.bw_level
      let dec := decrease_vdd bk (st4.vdd cpu) vdd_core vdd_mem vdd_dig reason
      let st5 := { st4 with vdd := upd st4.vdd cpu dec.vs,
                            first_set_call := upd st4.first_set_call cpu false }
      (st5, ev0 ++ so.ev ++ lo.ev ++ bev ++ dec.calls.map (fun c => Event.rail c.1 c.2), 0)

/-- acpuclk_8960_set_rate: bounds check (note the C guard is
`cpu > num_possible_cpus()`), early return when the rate is unchanged and
first_set_call is clear, target lookup by exact khz match up to the sentinel,
then the transition body. -/
def acpuclk_8960_set_rate (bk : Rail → Nat → Int) (atbl : List AcpuLevel)
    (st : SysState) (cpu : Nat) (rate : Nat) (reason : Reason) :
    SysState × List Event × Int :=
  if cpu > num_possible_cpus then (st, [], -EINVAL)
  else if rate = (st.cpuSpeed cpu).khz ∧ st.first_set_call cpu = false then
    (st, [], 0)
  else
    match atbl.find? (fun t => t.speed.khz == rate) with
    | none => (st, [], -EINVAL)
    | some tgt => set_rate_body bk st cpu reason tgt

/-- Unsigned-int semantics: reduce an Int modulo 2^32 and read it as a Nat
(the C cast of a possibly negative int to unsigned int). -/
def u32 (i : Int) : Nat := (i % (2 ^ 32 : Int)).toNat

/-- min(max(x, MIN_VDD_SC), MAX_VDD_SC) from acpuclk_set_vdd. -/
def clampVdd (x : Nat) : Nat := min (max x MIN_VDD_SC) MAX_VDD_SC

/-- One iteration body of the acpuclk_set_vdd loop applied to the entry
acpu_freq_tbl[i+1]: khz == 0 offsets every entry, a nonzero khz rewrites only
the matching entry, everything else is left unchanged. -/
def acpuclk_set_vdd_entry (khz : Nat) (vdd_uv : Int) (t : AcpuLevel) : AcpuLevel :=
  if khz = 0 then
    { t with vdd_core := clampVdd (u32 ((t.vdd_core : Int) + vdd_uv)) }
  else if t.speed.khz = khz then
    { t with vdd_core := clampVdd (u32 vdd_uv) }
  else t

/-- The acpuclk_set_vdd loop over acpu_freq_tbl[1..], stopping at the
sentinel (speed.khz == 0). -/
def acpuclk_set_vdd_loop (khz : Nat) (vdd_uv : Int) :
    List AcpuLevel → List AcpuLevel
  | [] => []
  | t :: ts =>
    if t.speed.khz = 0 then t :: ts
    else acpuclk_set_vdd_entry khz vdd_uv t :: acpuclk_set_vdd_loop khz vdd_uv ts

/-- acpuclk_set_vdd: the loop starts at index 1, so the first table entry is
never touched. -/
def acpuclk_set_vdd (tbl : List AcpuLevel) (khz : Nat) (vdd_uv : Int) :
    List AcpuLevel :=
  match tbl with
  | [] => []
  | t0 :: rest => t0 :: acpuclk_set_vdd_loop khz vdd_uv rest

/-- kraitv2_apply_vmin: raise every vdd_core below MIN_VDD_SC to MIN_VDD_SC. -/
def kraitv2_apply_vmin (tbl : List AcpuLevel) : List AcpuLevel :=
  tbl.map fun t =>
    if t.vdd_core < MIN_VDD_SC then { t with vdd_core := MIN_VDD_SC } else t

/-- The acpu_max_freq truncation in select_freq_plan: find the entry whose
khz equals the custom max and mark all subsequent entries as not usable for
scaling. -/
def apply_max_freq : List AcpuLevel → Nat → List AcpuLevel
  | [], _ => []
  | t :: ts, maxf =>
    if t.speed.khz = maxf then
      t :: ts.map (fun u => { u with use_for_scaling := false })
    else t :: apply_max_freq ts maxf

/-- The max-level scan at the end of select_freq_plan: keep the LAST entry
with use_for_scaling set AND speed.khz == 2160000 (the hardcoded comparison
in the source); none models the BUG_ON(!max_acpu_level) crash. -/
def find_max_acpu_level (tbl : List AcpuLevel) : Option AcpuLevel :=
  tbl.foldl
    (fun acc l =>
      if l.use_for_scaling = true ∧ l.speed.khz = 2160000 then some l else acc)
    none

/-- select_freq_plan after the efuse-driven table choice (the chosen table is
a parameter): vmin errata fix, custom-max-frequency truncation, then the
max-level scan.  acpu_max_freq = 0 means no truncation. -/
def select_freq_plan (tbl : List AcpuLevel) (needs_vmin : Bool)
    (acpu_max_freq : Nat) : Option AcpuLevel :=
  let t1 := if needs_vmin = true then kraitv2_apply_vmin tbl else tbl
  let t2 := if acpu_max_freq ≠ 0 then apply_max_freq t1 acpu_max_freq else t1
  find_max_acpu_level t2

/-- Written from the spec's words, for comparison with find_max_acpu_level:
the highest (by khz) operating point marked usable for scaling. -/
def spec_highest_usable (tbl : List AcpuLevel) : Option AcpuLevel :=
  tbl.foldl
    (fun acc l =>
      if l.use_for_scaling = true then
        match acc with
        | none => some l
        | some m => if l.speed.khz > m.speed.khz then some l else acc
      else acc)
    none

/-- State of the hotplug coordinator: the driver state plus the static
prev_khz/prev_pri_src/prev_sec_src arrays of acpuclock_cpu_callback. -/
structure HpState where
  sys : SysState
  prev_khz : Nat → Nat
  prev_pri : Nat → Nat
  prev_sec : Nat → Nat

/-- Hotplug notifier actions handled by acpuclock_cpu_callback. -/
inductive HpAction
  | dying
  | dead
  | up_canceled
  | up_prepare
  | starting
deriving DecidableEq, Repr

/-- acpuclock_cpu_callback: CPU_DYING saves the muxes and parks them on QSB;
CPU_DEAD records the frequency and falls through to the hotplug transition to
HOT_UNPLUG_KHZ; CPU_UP_CANCELED does the transition without recording;
CPU_UP_PREPARE replays the recorded frequency (NOTIFY_BAD when absent);
CPU_STARTING restores the saved muxes. -/
def acpuclock_cpu_callback (bk : Rail → Nat → Int) (atbl : List AcpuLevel)
    (hs : HpState) (action : HpAction) (cpu : Nat) : HpState :=
  match action with
  | HpAction.dying =>
    { hs with
      prev_sec := upd hs.prev_sec cpu (hs.sys.cpuMux cpu).sec,
      prev_pri := upd hs.prev_pri cpu (hs.sys.cpuMux cpu).pri,
      sys := { hs.sys with
        cpuMux := upd hs.sys.cpuMux cpu ⟨PRI_SRC_SEL_SEC_SRC, SEC_SRC_SEL_QSB⟩ } }
  | HpAction.dead =>
    let hs1 := { hs with
      prev_khz := upd hs.prev_khz cpu (acpuclk_8960_get_rate hs.sys cpu) }
    { hs1 with
      sys := (acpuclk_8960_set_rate bk atbl hs1.sys cpu HOT_UNPLUG_KHZ
        Reason.SETRATE_HOTPLUG).1 }
  | HpAction.up_canceled =>
    { hs with
      sys := (acpuclk_8960_set_rate bk atbl hs.sys cpu HOT_UNPLUG_KHZ
        Reason.SETRATE_HOTPLUG).1 }
  | HpAction.up_prepare =>
    if hs.prev_khz cpu = 0 then hs
    else
      { hs with
        sys := (acpuclk_8960_set_rate bk atbl hs.sys cpu (hs.prev_khz cpu)
          Reason.SETRATE_HOTPLUG).1 }
  | HpAction.starting =>
    { hs with
      sys := { hs.sys with
        cpuMux := upd hs.sys.cpuMux cpu ⟨hs.prev_pri cpu, hs.prev_sec cpu⟩ } }

/-- A rail backend that always succeeds. -/
def bk0 : Rail → Nat → Int := fun _ _ => 0

/-- The 2160000 kHz operating point of the slow table (the entry the startup
scan selects). -/
def maxSlow : AcpuLevel := ⟨true, ⟨2160000, HFPLL, 1, 0, 0x40⟩, 21, 1350000⟩

/-- A concrete post-init driver state: both cores and the L2 seeded at the
startup maximum (init_clock_sources / per_cpu_init), rail caches at their
zero-initialised values, first_set_call set. -/
def st0 : SysState := {
  present := [0, 1],
  cpuSpeed := fun _ => maxSlow.speed,
  cpuMux := fun _ => ⟨1, 0⟩,
  l2CurSpeed := (l2get 21).speed,
  l2Mux := ⟨1, 0⟩,
  l2_vote := fun _ => 21,
  vdd := fun _ => ⟨0, 0, 0⟩,
  first_set_call := fun _ => true }

/-- A concrete steady state: first_set_call cleared and rail caches at the
values of the 2160000 kHz point. -/
def stRun : SysState :=
  { st0 with
    first_set_call := fun _ => false,
    vdd := fun _ => ⟨1150000, 1150000, 1350000⟩ }

/-- A rail backend that rejects core-rail requests and accepts the rest. -/
def bkFailCore : Rail → Nat → Int :=
  fun r _ => if r = Rail.CORE then -5 else 0

/-- Written from the spec's words, for comparison with the calculate_vdd
functions: the PLL-dependent floor is zero when the speed's source is not
the reprogrammable PLL, the higher floor when its frequency-control value
exceeds the fixed threshold 0x28, and the lower floor otherwise. -/
def spec_pll_floor (s : CoreSpeed) : Nat :=
  if s.src ≠ HFPLL then 0
  else if s.pll_l_val > 0x28 then 1100000
  else 800000

/-- A sequence of transitions performed by (other) cores between two hotplug
events: each element is (core, rate, reason), applied through
acpuclk_8960_set_rate. -/
def run_others (bk : Rail → Nat → Int) (atbl : List AcpuLevel)
    (ops : List (Nat × Nat × Reason)) (hs : HpState) : HpState :=
  ops.foldl
    (fun s op =>
      { s with sys := (acpuclk_8960_set_rate bk atbl s.sys op.1 op.2.1 op.2.2).1 })
    hs

/-- A concrete hotplug-coordinator state over st0 with cleared static arrays. -/
def hs0 : HpState := ⟨st0, fun _ => 0, fun _ => 0, fun _ => 0⟩

/-- The per-step properties of increase_vdd claimed by the spec: each step is
a no-op unless the requested value exceeds the cached one, the cache is
updated only when the backend call succeeded, a failure is the last issued
call and its error code is returned, and a zero return code means every
issued call succeeded. -/
def IncreaseSpec (bk : Rail → Nat → Int) (vs : VddState)
    (vdd_core vdd_mem vdd_dig : Nat) (o : RailOut) : Prop :=
  (∀ v, (Rail.MEM, v) ∈ o.calls → v = vdd_mem ∧ vdd_mem > vs.mem) ∧
  (∀ v, (Rail.DIG, v) ∈ o.calls → v = vdd_dig ∧ vdd_dig > vs.dig) ∧
  (∀ v, (Rail.CORE, v) ∈ o.calls → v = vdd_core ∧ vdd_core > vs.core) ∧
  (o.vs.mem = vs.mem ∨ (o.vs.mem = vdd_mem ∧ bk Rail.MEM vdd_mem = 0)) ∧
  (o.vs.dig = vs.dig ∨ (o.vs.dig = vdd_dig ∧ bk Rail.DIG vdd_dig = 0)) ∧
  (o.vs.core = vs.core ∨ (o.vs.core = vdd_core ∧ bk Rail.CORE vdd_core = 0)) ∧
  (o.rc ≠ 0 → o.calls ≠ [] ∧ ∀ q, o.calls.getLast? = some q → bk q.1 q.2 = o.rc) ∧
  (o.rc = 0 → ∀ q ∈ o.calls, bk q.1 q.2 = 0)

/-- The per-step properties of decrease_vdd that hold in the code: no-op
condition, cache updated only on success, and a failing call is the last one
issued (the remaining steps are aborted).  There is no return-code clause:
decrease_vdd returns void. -/
def DecreaseSpec (bk : Rail → Nat → Int) (vs : VddState)
    (vdd_core vdd_mem vdd_dig : Nat) (o : DecOut) : Prop :=
  (∀ v, (Rail.CORE, v) ∈ o.calls → v = vdd_core ∧ vdd_core < vs.core) ∧
  (∀ v, (Rail.DIG, v) ∈ o.calls → v = vdd_dig ∧ vdd_dig < vs.dig) ∧
  (∀ v, (Rail.MEM, v) ∈ o.calls → v = vdd_mem ∧ vdd_mem < vs.mem) ∧
  (o.vs.mem = vs.mem ∨ (o.vs.mem = vdd_mem ∧ bk Rail.MEM vdd_mem = 0)) ∧
  (o.vs.dig = vs.dig ∨ (o.vs.dig = vdd_dig ∧ bk Rail.DIG vdd_dig = 0)) ∧
  (o.vs.core = vs.core ∨ (o.vs.core = vdd_core ∧ bk Rail.CORE vdd_core = 0)) ∧
  (∀ q ∈ o.calls, bk q.1 q.2 ≠ 0 → o.calls.getLast? = some q)

/-- Per-entry relation used to state what acpuclk_set_vdd does to the table:
an entry is either unchanged, or only its core voltage changed to a value
inside [MIN_VDD_SC, MAX_VDD_SC]; and when a nonzero frequency is requested,
entries with a different frequency are unchanged. -/
def set_vdd_entry_ok (khz : Nat) (a b : AcpuLevel) : Prop :=
  (b = a ∨
    (b.speed = a.speed ∧ b.use_for_scaling = a.use_for_scaling ∧
      b.l2_idx = a.l2_idx ∧ MIN_VDD_SC ≤ b.vdd_core ∧ b.vdd_core ≤ MAX_VDD_SC)) ∧
  (khz ≠ 0 → a.speed.khz ≠ khz → b = a)

theorem upd_same {α : Type} (f : Nat → α) (i : Nat) (v : α) : upd f i v i = v := by
  simp [upd]

theorem upd_ne {α : Type} (f : Nat → α) (i : Nat) (v : α) (j : Nat) (h : j ≠ i) :
    upd f i v j = f j := by
  simp [upd, h]

theorem set_speed_spd (dom : Nat) (strt : CoreSpeed) (mux : MuxState)
    (tgt : CoreSpeed) (reason : Reason) (isL2 : Bool) :
    (set_speed dom strt mux tgt reason isL2).spd = tgt := by
  unfold set_speed
  split_ifs <;> simp_all

theorem foldl_max_init_le (f : Nat → Nat) :
    ∀ (l : List Nat) (a : Nat), a ≤ l.foldl (fun n x => max n (f x)) a := by
  intro l
  induction l with
  | nil => intro a; simp
  | cons x xs ih =>
    intro a
    calc a ≤ max a (f x) := Nat.le_max_left _ _
    _ ≤ xs.foldl (fun n x => max n (f x)) (max a (f x)) := ih _

theorem foldl_max_le_of_mem (f : Nat → Nat) :
    ∀ (l : List Nat) (a c : Nat), c ∈ l → f c ≤ l.foldl (fun n x => max n (f x)) a := by
  intro l
  induction l with
  | nil => intro a c h; cases h
  | cons x xs ih =>
    intro a c h
    rcases List.mem_cons.mp h with h1 | h2
    · subst h1
      calc f c ≤ max a (f c) := Nat.le_max_right _ _
      _ ≤ xs.foldl (fun n x => max n (f x)) (max a (f c)) := foldl_max_init_le f xs _
    · exact ih _ c h2

theorem foldl_max_eq_cases (f : Nat → Nat) :
    ∀ (l : List Nat) (a : Nat),
      l.foldl (fun n x => max n (f x)) a = a ∨
        ∃ c ∈ l, l.foldl (fun n x => max n (f x)) a = f c := by
  intro l
  induction l with
  | nil => intro a; left; rfl
  | cons x xs ih =>
    intro a
    rcases ih (max a (f x)) with h | ⟨c, hc, hfc⟩
    · rcases Nat.le_total a (f x) with hle | hle
      · right
        refine ⟨x, List.mem_cons_self _ _, ?_⟩
        simpa [List.foldl_cons, Nat.max_eq_right hle] using h
      · left
        simpa [List.foldl_cons, Nat.max_eq_left hle] using h
    · right
      exact ⟨c, List.mem_cons_of_mem _ hc, hfc⟩

theorem set_rate_body_success (bk : Rail → Nat → Int) (st : SysState)
    (cpu : Nat) (reason : Reason) (tgt : AcpuLevel)
    (h : (set_rate_body bk st cpu reason tgt).2.2 = 0) :
    (set_rate_body bk st cpu reason tgt).1.cpuSpeed cpu = tgt.speed ∧
    (set_rate_body bk st cpu reason tgt).1.l2CurSpeed =
      (l2get ((compute_l2_level st.l2_vote st.present cpu tgt.l2_idx).2)).speed := by
  simp only [set_rate_body] at h ⊢
  split_ifs at h ⊢ <;> simp_all [upd_same, set_speed_spd]

theorem set_rate_body_first_clear (bk : Rail → Nat → Int) (st : SysState)
    (cpu : Nat) (reason : Reason) (tgt : AcpuLevel)
    (hr : reason = Reason.SETRATE_CPUFREQ ∨ reason = Reason.SETRATE_HOTPLUG)
    (h : (set_rate_body bk st cpu reason tgt).2.2 = 0) :
    (set_rate_body bk st cpu reason tgt).1.first_set_call cpu = false := by
  simp only [set_rate_body] at h ⊢
  split_ifs at h ⊢ with h1 h2
  · simp_all
  · rcases hr with hr | hr <;> rcases h2 with h2 | h2 <;> simp_all
  · simp [upd_same]

theorem set_rate_body_cpuMux_frame (bk : Rail → Nat → Int) (st : SysState)
    (c : Nat) (reason : Reason) (tgt : AcpuLevel) (cpu : Nat) (h : cpu ≠ c) :
    (set_rate_body bk st c reason tgt).1.cpuMux cpu = st.cpuMux cpu := by
  simp only [set_rate_body]
  split_ifs <;> simp [upd, h]

theorem set_rate_cpuMux_frame (bk : Rail → Nat → Int) (atbl : List AcpuLevel)
    (st : SysState) (c : Nat) (rate : Nat) (reason : Reason) (cpu : Nat)
    (h : cpu ≠ c) :
    ((acpuclk_8960_set_rate bk atbl st c rate reason).1).cpuMux cpu =
      st.cpuMux cpu := by
  unfold acpuclk_8960_set_rate
  split_ifs
  · rfl
  · rfl
  · cases hf : atbl.find? (fun t => t.speed.khz == rate) with
    | none => simp [hf]
    | some tgt => simp [hf, set_rate_body_cpuMux_frame bk st c reason tgt cpu h]

theorem inc_mem_calls (bk : Rail → Nat → Int) (vs : VddState)
    (vdd_core vdd_mem vdd_dig : Nat) (reason : Reason) (v : Nat)
    (h : (Rail.MEM, v) ∈ (increase_vdd bk vs vdd_core vdd_mem vdd_dig reason).calls) :
    v = vdd_mem ∧ vdd_mem > vs.mem := by
  unfold increase_vdd inc_dig_step inc_core_step at h
  split_ifs at h <;> simp_all

theorem inc_dig_calls (bk : Rail → Nat → Int) (vs : VddState)
    (vdd_core vdd_mem vdd_dig : Nat) (reason : Reason) (v : Nat)
    (h : (Rail.DIG, v) ∈ (increase_vdd bk vs vdd_core vdd_mem vdd_dig reason).calls) :
    v = vdd_dig ∧ vdd_dig > vs.dig := by
  unfold increase_vdd inc_dig_step inc_core_step at h
  split_ifs at h <;> simp_all

theorem inc_core_calls (bk : Rail → Nat → Int) (vs : VddState)
    (vdd_core vdd_mem vdd_dig : Nat) (reason : Reason) (v : Nat)
    (h : (Rail.CORE, v) ∈ (increase_vdd bk vs vdd_core vdd_mem vdd_dig reason).calls) :
    v = vdd_core ∧ vdd_core > vs.core ∧ reason ≠ Reason.SETRATE_HOTPLUG := by
  unfold increase_vdd inc_dig_step inc_core_step at h
  split_ifs at h <;> simp_all

theorem dec_core_calls (bk : Rail → Nat → Int) (vs : VddState)
    (vdd_core vdd_mem vdd_dig : Nat) (reason : Reason) (v : Nat)
    (h : (Rail.CORE, v) ∈ (decrease_vdd bk vs vdd_core vdd_mem vdd_dig reason).calls) :
    v = vdd_core ∧ vdd_core < vs.core ∧ reason ≠ Reason.SETRATE_HOTPLUG := by
  unfold decrease_vdd dec_dig_step dec_mem_step at h
  split_ifs at h <;> simp_all

theorem dec_dig_calls (bk : Rail → Nat → Int) (vs : VddState)
    (vdd_core vdd_mem vdd_dig : Nat) (reason : Reason) (v : Nat)
    (h : (Rail.DIG, v) ∈ (decrease_vdd bk vs vdd_core vdd_mem vdd_dig reason).calls) :
    v = vdd_dig ∧ vdd_dig < vs.dig := by
  unfold decrease_vdd dec_dig_step dec_mem_step at h
  split_ifs at h <;> simp_all

theorem dec_mem_calls (bk : Rail → Nat → Int) (vs : VddState)
    (vdd_core vdd_mem vdd_dig : Nat) (reason : Reason) (v : Nat)
    (h : (Rail.MEM, v) ∈ (decrease_vdd bk vs vdd_core vdd_mem vdd_dig reason).calls) :
    v = vdd_mem ∧ vdd_mem < vs.mem := by
  unfold decrease_vdd dec_dig_step dec_mem_step at h
  split_ifs at h <;> simp_all

theorem inc_cache_on_success (bk : Rail → Nat → Int) (vs : VddState)
    (vdd_core vdd_mem vdd_dig : Nat) (reason : Reason) :
    ((increase_vdd bk vs vdd_core vdd_mem vdd_dig reason).vs.mem = vs.mem ∨
      ((increase_vdd bk vs vdd_core vdd_mem vdd_dig reason).vs.mem = vdd_mem ∧
        bk Rail.MEM vdd_mem = 0)) ∧
    ((increase_vdd bk vs vdd_core vdd_mem vdd_dig reason).vs.dig = vs.dig ∨
      ((increase_vdd bk vs vdd_core vdd_mem vdd_dig reason).vs.dig = vdd_dig ∧
        bk Rail.DIG vdd_dig = 0)) ∧
    ((increase_vdd bk vs vdd_core vdd_mem vdd_dig reason).vs.core = vs.core ∨
      ((increase_vdd bk vs vdd_core vdd_mem vdd_dig reason).vs.core = vdd_core ∧
        bk Rail.CORE vdd_core = 0)) := by
  unfold increase_vdd inc_dig_step inc_core_step
  split_ifs <;> simp_all

theorem dec_cache_on_success (bk : Rail → Nat → Int) (vs : VddState)
    (vdd_core vdd_mem vdd_dig : Nat) (reason : Reason) :
    ((decrease_vdd bk vs vdd_core vdd_mem vdd_dig reason).vs.mem = vs.mem ∨
      ((decrease_vdd bk vs vdd_core vdd_mem vdd_dig reason).vs.mem = vdd_mem ∧
        bk Rail.MEM vdd_mem = 0)) ∧
    ((decrease_vdd bk vs vdd_core vdd_mem vdd_dig reason).vs.dig = vs.dig ∨
      ((decrease_vdd bk vs vdd_core vdd_mem vdd_dig reason).vs.dig = vdd_dig ∧
        bk Rail.DIG vdd_dig = 0)) ∧
    ((decrease_vdd bk vs vdd_core vdd_mem vdd_dig reason).vs.core = vs.core ∨
      ((decrease_vdd bk vs vdd_core vdd_mem vdd_dig reason).vs.core = vdd_core ∧
        bk Rail.CORE vdd_core = 0)) := by
  unfold decrease_vdd dec_dig_step dec_mem_step
  split_ifs <;> simp_all

theorem inc_fail_aborts (bk : Rail → Nat → Int) (vs : VddState)
    (vdd_core vdd_mem vdd_dig : Nat) (reason : Reason)
    (h : (increase_vdd bk vs vdd_core vdd_mem vdd_dig reason).rc ≠ 0) :
    (increase_vdd bk vs vdd_core vdd_mem vdd_dig reason).calls ≠ [] ∧
    ∀ q, (increase_vdd bk vs vdd_core vdd_mem vdd_dig reason).calls.getLast? = some q →
      bk q.1 q.2 = (increase_vdd bk vs vdd_core vdd_mem vdd_dig reason).rc := by
  unfold increase_vdd inc_dig_step inc_core_step at h ⊢
  split_ifs at h ⊢ <;> simp_all [List.getLast?]

theorem inc_ok_all_calls_ok (bk : Rail → Nat → Int) (vs : VddState)
    (vdd_core vdd_mem vdd_dig : Nat) (reason : Reason)
    (h : (increase_vdd bk vs vdd_core vdd_mem vdd_dig reason).rc = 0) :
    ∀ q ∈ (increase_vdd bk vs vdd_core vdd_mem vdd_dig reason).calls,
      bk q.1 q.2 = 0 := by
  unfold increase_vdd inc_dig_step inc_core_step at h ⊢
  split_ifs at h ⊢ <;> simp_all

theorem dec_fail_aborts (bk : Rail → Nat → Int) (vs : VddState)
    (vdd_core vdd_mem vdd_dig : Nat) (reason : Reason) :
    ∀ q ∈ (decrease_vdd bk vs vdd_core vdd_mem vdd_dig reason).calls,
      bk q.1 q.2 ≠ 0 →
        (decrease_vdd bk vs vdd_core vdd_mem vdd_dig reason).calls.getLast? = some q := by
  unfold decrease_vdd dec_dig_step dec_mem_step
  split_ifs <;> simp_all [List.getLast?]

theorem clampVdd_bounds (x : Nat) :
    MIN_VDD_SC ≤ clampVdd x ∧ clampVdd x ≤ MAX_VDD_SC := by
  unfold clampVdd
  exact ⟨le_min (le_trans (by norm_num [MIN_VDD_SC]) (Nat.le_max_right x MIN_VDD_SC))
    (by norm_num [MIN_VDD_SC, MAX_VDD_SC]), min_le_right _ _⟩

theorem set_vdd_entry_ok_refl (khz : Nat) (a : AcpuLevel) : set_vdd_entry_ok khz a a :=
  ⟨Or.inl rfl, fun _ _ => rfl⟩

theorem forall2_set_vdd_refl (khz : Nat) :
    ∀ l : List AcpuLevel, List.Forall₂ (set_vdd_entry_ok khz) l l := by
  intro l
  induction l with
  | nil => exact List.Forall₂.nil
  | cons t ts ih => exact List.Forall₂.cons (set_vdd_entry_ok_refl khz t) ih

theorem set_vdd_entry_spec (khz : Nat) (vdd_uv : Int) (t : AcpuLevel) :
    set_vdd_entry_ok khz t (acpuclk_set_vdd_entry khz vdd_uv t) := by
  unfold acpuclk_set_vdd_entry set_vdd_entry_ok
  split_ifs with h1 h2
  · exact ⟨Or.inr ⟨rfl, rfl, rfl, (clampVdd_bounds _).1, (clampVdd_bounds _).2⟩,
      fun hk _ => absurd h1 hk⟩
  · exact ⟨Or.inr ⟨rfl, rfl, rfl, (clampVdd_bounds _).1, (clampVdd_bounds _).2⟩,
      fun _ hne => absurd h2 hne⟩
  · exact ⟨Or.inl rfl, fun _ _ => rfl⟩

theorem set_vdd_loop_spec (khz : Nat) (vdd_uv : Int) :
    ∀ ts : List AcpuLevel,
      List.Forall₂ (set_vdd_entry_ok khz) ts (acpuclk_set_vdd_loop khz vdd_uv ts) := by
  intro ts
  induction ts with
  | nil => exact List.Forall₂.nil
  | cons t ts ih =>
    unfold acpuclk_set_vdd_loop
    split_ifs with h
    · exact forall2_set_vdd_refl khz (t :: ts)
    · exact List.Forall₂.cons (set_vdd_entry_spec khz vdd_uv t) ih

/-- C10: every core-voltage value acpuclk_set_vdd writes into the table is
clamped into [MIN_VDD_SC, MAX_VDD_SC] (an entry either keeps its old record
or keeps all fields except vdd_core, which lands inside the clamp range),
and when the requested frequency is nonzero, entries whose frequency does
not match it are left unchanged. -/
theorem c10_set_vdd_clamped (tbl : List AcpuLevel) (khz : Nat) (vdd_uv : Int) :
    List.Forall₂ (set_vdd_entry_ok khz) tbl (acpuclk_set_vdd tbl khz vdd_uv) := by
  cases tbl with
  | nil => exact List.Forall₂.nil
  | cons t0 rest =>
    exact List.Forall₂.cons (set_vdd_entry_ok_refl khz t0)
      (set_vdd_loop_spec khz vdd_uv rest)

theorem c10_witness :
    List.Forall₂ (set_vdd_entry_ok 702000) acpu_freq_tbl_8960_fusion_slow
      (acpuclk_set_vdd acpu_freq_tbl_8960_fusion_slow 702000 1000000) :=
  c10_set_vdd_clamped acpu_freq_tbl_8960_fusion_slow 702000 1000000

/-- C5: for every operating point, the required core-rail and cache-rail
voltages equal the maximum of the table's nominal value and the PLL floor
(zero when the relevant speed's source is not the HFPLL, 1100000 uV when its
pll_l_val exceeds 0x28, 800000 uV otherwise), and the memory-rail voltage
equals the table's nominal value.  The core floor is driven by the target
acpu speed, the cache floor by the associated L2 speed. -/
theorem c5_vdd_floor (tgt : AcpuLevel) :
    calculate_vdd_core tgt = max tgt.vdd_core (spec_pll_floor tgt.speed) ∧
    calculate_vdd_dig tgt =
      max (l2get tgt.l2_idx).vdd_dig (spec_pll_floor (l2get tgt.l2_idx).speed) ∧
    calculate_vdd_mem tgt = (l2get tgt.l2_idx).vdd_mem :=
  ⟨rfl, rfl, rfl⟩

/-- C2: compute_l2_level records the voting core's vote; every present
core's (updated) vote is bounded by the returned level; the returned level
is either the lowest table level (index 0, what absent cores contribute) or
some present core's vote; votes of other cores are untouched; and on a
successful transition the shared domain's new speed is exactly the speed of
the level compute_l2_level returned. -/
theorem c2_domain_arbitrator (votes : Nat → Nat) (present : List Nat)
    (cpu vote_l : Nat) (bk : Rail → Nat → Int) (st : SysState)
    (reason : Reason) (tgt : AcpuLevel) :
    ((compute_l2_level votes present cpu vote_l).1 cpu = vote_l) ∧
    (∀ c, c ≠ cpu → (compute_l2_level votes present cpu vote_l).1 c = votes c) ∧
    (∀ c ∈ present,
      (compute_l2_level votes present cpu vote_l).1 c ≤
        (compute_l2_level votes present cpu vote_l).2) ∧
    ((compute_l2_level votes present cpu vote_l).2 = 0 ∨
      ∃ c ∈ present,
        (compute_l2_level votes present cpu vote_l).2 =
          (compute_l2_level votes present cpu vote_l).1 c) ∧
    ((set_rate_body bk st cpu reason tgt).2.2 = 0 →
      (set_rate_body bk st cpu reason tgt).1.l2CurSpeed =
        (l2get ((compute_l2_level st.l2_vote st.present cpu tgt.l2_idx).2)).speed) := by
  refine ⟨?_, ?_, ?_, ?_, ?_⟩
  · simp [compute_l2_level, upd_same]
  · intro c hc
    simp [compute_l2_level, upd_ne _ _ _ _ hc]
  · intro c hc
    simpa [compute_l2_level] using
      foldl_max_le_of_mem (upd votes cpu vote_l) present 0 c hc
  · simpa [compute_l2_level] using
      foldl_max_eq_cases (upd votes cpu vote_l) present 0
  · intro h
    exact (set_rate_body_success bk st cpu reason tgt h).2

theorem c2_witness :
    (set_rate_body bk0 st0 0 Reason.SETRATE_CPUFREQ maxSlow).1.l2CurSpeed =
      (l2get ((compute_l2_level st0.l2_vote st0.present 0 maxSlow.l2_idx).2)).speed :=
  (c2_domain_arbitrator st0.l2_vote st0.present 0 maxSlow.l2_idx bk0 st0
    Reason.SETRATE_CPUFREQ maxSlow).2.2.2.2 (by decide)

/-- C1: whenever acpuclk_8960_set_rate reports success for a valid core, an
immediately following acpuclk_8960_get_rate on that core returns the
requested rate. -/
theorem c1_transition_then_get_rate (bk : Rail → Nat → Int)
    (atbl : List AcpuLevel) (st : SysState) (cpu rate : Nat) (reason : Reason)
    (hcpu : cpu < num_possible_cpus)
    (h : (acpuclk_8960_set_rate bk atbl st cpu rate reason).2.2 = 0) :
    acpuclk_8960_get_rate (acpuclk_8960_set_rate bk atbl st cpu rate reason).1 cpu
      = rate := by
  unfold acpuclk_8960_set_rate at h ⊢
  have hg : ¬ cpu > num_possible_cpus := by omega
  rw [if_neg hg] at h ⊢
  by_cases he : rate = (st.cpuSpeed cpu).khz ∧ st.first_set_call cpu = false
  · rw [if_pos he] at h ⊢
    simp [acpuclk_8960_get_rate, he.1]
  · rw [if_neg he] at h ⊢
    cases hf : atbl.find? (fun t => t.speed.khz == rate) with
    | none =>
      rw [hf] at h
      norm_num [EINVAL] at h
    | some tgt =>
      rw [hf] at h
      have hk : tgt.speed.khz = rate := by
        simpa using List.find?_some hf
      have hs := set_rate_body_success bk st cpu reason tgt h
      simp [acpuclk_8960_get_rate, hs.1, hk]

theorem c1_witness :
    acpuclk_8960_get_rate
      (acpuclk_8960_set_rate bk0 acpu_freq_tbl_8960_fusion_slow stRun 0 702000
        Reason.SETRATE_CPUFREQ).1 0 = 702000 :=
  c1_transition_then_get_rate bk0 acpu_freq_tbl_8960_fusion_slow stRun 0 702000
    Reason.SETRATE_CPUFREQ (by decide) (by decide)

/-- C6: the out-of-range-core half of the claim fails in the code.  The C
bounds check is `cpu > num_possible_cpus()`, so the out-of-range index
cpu = num_possible_cpus() (= 2; valid cores are 0 and 1) is NOT rejected:
the call does not return -EINVAL and proceeds to issue backend calls (in the
C driver it dereferences the uninitialised scalable[2] entry).  The model
uses total per-cpu maps, so it shows the guard miss and the attempted side
effects. -/
theorem c6_bounds_check_bug :
    ¬ (2 > num_possible_cpus) ∧
    (acpuclk_8960_set_rate bk0 acpu_freq_tbl_8960_fusion_slow st0 2 384000
      Reason.SETRATE_CPUFREQ).2.2 ≠ -EINVAL ∧
    (acpuclk_8960_set_rate bk0 acpu_freq_tbl_8960_fusion_slow st0 2 384000
      Reason.SETRATE_CPUFREQ).2.1 ≠ [] := by
  refine ⟨by decide, by decide, by decide⟩

/-- C3: the Rail Sequencer issues its backend calls in the fixed order
memory, cache (dig), core on the increase path and core, cache (dig), memory
on the decrease path; any subset may be skipped (no-op or abort) but never
reordered, and the core-rail step never appears for the hotplug reason. -/
theorem c3_rail_order (bk : Rail → Nat → Int) (vs : VddState)
    (vdd_core vdd_mem vdd_dig : Nat) (reason : Reason) :
    List.Sublist
      ((increase_vdd bk vs vdd_core vdd_mem vdd_dig reason).calls.map Prod.fst)
      [Rail.MEM, Rail.DIG, Rail.CORE] ∧
    (reason = Reason.SETRATE_HOTPLUG →
      Rail.CORE ∉
        (increase_vdd bk vs vdd_core vdd_mem vdd_dig reason).calls.map Prod.fst) ∧
    List.Sublist
      ((decrease_vdd bk vs vdd_core vdd_mem vdd_dig reason).calls.map Prod.fst)
      [Rail.CORE, Rail.DIG, Rail.MEM] ∧
    (reason = Reason.SETRATE_HOTPLUG →
      Rail.CORE ∉
        (decrease_vdd bk vs vdd_core vdd_mem vdd_dig reason).calls.map Prod.fst) := by
  refine ⟨?_, ?_, ?_, ?_⟩
  · unfold increase_vdd inc_dig_step inc_core_step
    split_ifs <;> simp_all
  · unfold increase_vdd inc_dig_step inc_core_step
    split_ifs <;> simp_all
  · unfold decrease_vdd dec_dig_step dec_mem_step
    split_ifs <;> simp_all
  · unfold decrease_vdd dec_dig_step dec_mem_step
    split_ifs <;> simp_all

theorem c3_witness :
    List.Sublist
      ((increase_vdd bk0 ⟨0, 0, 0⟩ 900000 1050000 1050000
        Reason.SETRATE_CPUFREQ).calls.map Prod.fst)
      [Rail.MEM, Rail.DIG, Rail.CORE] ∧
    (Reason.SETRATE_CPUFREQ = Reason.SETRATE_HOTPLUG →
      Rail.CORE ∉
        (increase_vdd bk0 ⟨0, 0, 0⟩ 900000 1050000 1050000
          Reason.SETRATE_CPUFREQ).calls.map Prod.fst) ∧
    List.Sublist
      ((decrease_vdd bk0 ⟨0, 0, 0⟩ 900000 1050000 1050000
        Reason.SETRATE_CPUFREQ).calls.map Prod.fst)
      [Rail.CORE, Rail.DIG, Rail.MEM] ∧
    (Reason.SETRATE_CPUFREQ = Reason.SETRATE_HOTPLUG →
      Rail.CORE ∉
        (decrease_vdd bk0 ⟨0, 0, 0⟩ 900000 1050000 1050000
          Reason.SETRATE_CPUFREQ).calls.map Prod.fst) :=
  c3_rail_order bk0 ⟨0, 0, 0⟩ 900000 1050000 1050000 Reason.SETRATE_CPUFREQ

/-- C4 counterexample: a failing backend call on the decrease path is not
reported to the caller.  With a backend that rejects core-rail requests, a
transition from the 2160000 kHz point down to 384000 kHz issues the failing
core-rail decrease call (visible in the event trace), yet
acpuclk_8960_set_rate still returns 0 (success): decrease_vdd returns void. -/
theorem c4_counterexample :
    (acpuclk_8960_set_rate bkFailCore acpu_freq_tbl_8960_fusion_slow stRun 0
      384000 Reason.SETRATE_CPUFREQ).2.2 = 0 ∧
    Event.rail Rail.CORE 900000 ∈
      (acpuclk_8960_set_rate bkFailCore acpu_freq_tbl_8960_fusion_slow stRun 0
        384000 Reason.SETRATE_CPUFREQ).2.1 ∧
    bkFailCore Rail.CORE 900000 ≠ 0 := by
  refine ⟨by decide, by decide, by decide⟩

/-- C4 amended: every Rail Sequencer step is a no-op unless the requested
value exceeds (increase) / falls below (decrease) the rail's cached value;
the cache is updated only when that step's backend call succeeded; a backend
failure aborts the remaining steps of the call (the failing call is the last
one issued); on the increase path the failure's error code is reported to
the caller, but on the decrease path no status is returned (decrease_vdd is
void), so decrease failures are not reported. -/
theorem c4_rail_step_contract (bk : Rail → Nat → Int) (vs : VddState)
    (vdd_core vdd_mem vdd_dig : Nat) (reason : Reason) :
    IncreaseSpec bk vs vdd_core vdd_mem vdd_dig
      (increase_vdd bk vs vdd_core vdd_mem vdd_dig reason) ∧
    DecreaseSpec bk vs vdd_core vdd_mem vdd_dig
      (decrease_vdd bk vs vdd_core vdd_mem vdd_dig reason) := by
  constructor
  · refine ⟨?_, ?_, ?_, ?_, ?_, ?_, ?_, ?_⟩
    · exact fun v h => inc_mem_calls bk vs vdd_core vdd_mem vdd_dig reason v h
    · exact fun v h => inc_dig_calls bk vs vdd_core vdd_mem vdd_dig reason v h
    · exact fun v h =>
        ⟨(inc_core_calls bk vs vdd_core vdd_mem vdd_dig reason v h).1,
         (inc_core_calls bk vs vdd_core vdd_mem vdd_dig reason v h).2.1⟩
    · exact (inc_cache_on_success bk vs vdd_core vdd_mem vdd_dig reason).1
    · exact (inc_cache_on_success bk vs vdd_core vdd_mem vdd_dig reason).2.1
    · exact (inc_cache_on_success bk vs vdd_core vdd_mem vdd_dig reason).2.2
    · exact fun h => inc_fail_aborts bk vs vdd_core vdd_mem vdd_dig reason h
    · exact fun h => inc_ok_all_calls_ok bk vs vdd_core vdd_mem vdd_dig reason h
  · refine ⟨?_, ?_, ?_, ?_, ?_, ?_, ?_⟩
    · exact fun v h =>
        ⟨(dec_core_calls bk vs vdd_core vdd_mem vdd_dig reason v h).1,
         (dec_core_calls bk vs vdd_core vdd_mem vdd_dig reason v h).2.1⟩
    · exact fun v h => dec_dig_calls bk vs vdd_core vdd_mem vdd_dig reason v h
    · exact fun v h => dec_mem_calls bk vs vdd_core vdd_mem vdd_dig reason v h
    · exact (dec_cache_on_success bk vs vdd_core vdd_mem vdd_dig reason).1
    · exact (dec_cache_on_success bk vs vdd_core vdd_mem vdd_dig reason).2.1
    · exact (dec_cache_on_success bk vs vdd_core vdd_mem vdd_dig reason).2.2
    · exact dec_fail_aborts bk vs vdd_core vdd_mem vdd_dig reason

theorem c4_witness :
    IncreaseSpec bkFailCore ⟨0, 0, 0⟩ 900000 1050000 1050000
      (increase_vdd bkFailCore ⟨0, 0, 0⟩ 900000 1050000 1050000
        Reason.SETRATE_CPUFREQ) ∧
    DecreaseSpec bkFailCore ⟨0, 0, 0⟩ 900000 1050000 1050000
      (decrease_vdd bkFailCore ⟨0, 0, 0⟩ 900000 1050000 1050000
        Reason.SETRATE_CPUFREQ) :=
  c4_rail_step_contract bkFailCore ⟨0, 0, 0⟩ 900000 1050000 1050000
    Reason.SETRATE_CPUFREQ

/-- C7 counterexample: after a first successful transition whose reason is
SWFI, first_set_call is NOT cleared, so a later request for the now-current
frequency takes the full path and issues backend calls.  From the init state
(first_set_call = true, running at 2160000 kHz): a successful SWFI
transition to 384000 kHz, then a successful CPUFREQ request for the current
384000 kHz that issues a non-empty backend event trace. -/
theorem c7_counterexample :
    (acpuclk_8960_set_rate bk0 acpu_freq_tbl_8960_fusion_slow st0 0 384000
      Reason.SETRATE_SWFI).2.2 = 0 ∧
    acpuclk_8960_get_rate
      (acpuclk_8960_set_rate bk0 acpu_freq_tbl_8960_fusion_slow st0 0 384000
        Reason.SETRATE_SWFI).1 0 = 384000 ∧
    (acpuclk_8960_set_rate bk0 acpu_freq_tbl_8960_fusion_slow
      (acpuclk_8960_set_rate bk0 acpu_freq_tbl_8960_fusion_slow st0 0 384000
        Reason.SETRATE_SWFI).1 0 384000 Reason.SETRATE_CPUFREQ).2.2 = 0 ∧
    (acpuclk_8960_set_rate bk0 acpu_freq_tbl_8960_fusion_slow
      (acpuclk_8960_set_rate bk0 acpu_freq_tbl_8960_fusion_slow st0 0 384000
        Reason.SETRATE_SWFI).1 0 384000 Reason.SETRATE_CPUFREQ).2.1 ≠ [] := by
  refine ⟨by decide, by decide, by decide, by decide⟩

/-- C7 amended: a successful transition with a cpufreq or hotplug reason
(the reasons that run the transition to completion) clears first_set_call,
and once first_set_call is clear a request for the core's current frequency
returns success with no backend calls and leaves the state untouched.  A
first transition whose reason is power collapse or SWFI does not clear the
flag, which is what the counterexample exhibits. -/
theorem c7_noop_after_full_transition :
    (∀ (bk : Rail → Nat → Int) (atbl : List AcpuLevel) (st : SysState)
      (cpu rate : Nat) (reason : Reason),
      (reason = Reason.SETRATE_CPUFREQ ∨ reason = Reason.SETRATE_HOTPLUG) →
      (acpuclk_8960_set_rate bk atbl st cpu rate reason).2.2 = 0 →
      (acpuclk_8960_set_rate bk atbl st cpu rate reason).1.first_set_call cpu
        = false) ∧
    (∀ (bk : Rail → Nat → Int) (atbl : List AcpuLevel) (st : SysState)
      (cpu rate : Nat) (reason : Reason),
      ¬ cpu > num_possible_cpus →
      st.first_set_call cpu = false →
      rate = (st.cpuSpeed cpu).khz →
      acpuclk_8960_set_rate bk atbl st cpu rate reason = (st, [], 0)) := by
  constructor
  · intro bk atbl st cpu rate reason hr h
    unfold acpuclk_8960_set_rate at h ⊢
    by_cases hg : cpu > num_possible_cpus
    · rw [if_pos hg] at h
      norm_num [EINVAL] at h
    · rw [if_neg hg] at h ⊢
      by_cases he : rate = (st.cpuSpeed cpu).khz ∧ st.first_set_call cpu = false
      · rw [if_pos he] at h ⊢
        exact he.2
      · rw [if_neg he] at h ⊢
        cases hf : atbl.find? (fun t => t.speed.khz == rate) with
        | none =>
          rw [hf] at h
          norm_num [EINVAL] at h
        | some tgt =>
          rw [hf] at h
          exact set_rate_body_first_clear bk st cpu reason tgt hr h
  · intro bk atbl st cpu rate reason hg hfirst hrate
    unfold acpuclk_8960_set_rate
    rw [if_neg hg, if_pos ⟨hrate, hfirst⟩]

theorem c7_witness :
    acpuclk_8960_set_rate bk0 acpu_freq_tbl_8960_fusion_slow stRun 0 2160000
      Reason.SETRATE_PC = (stRun, [], 0) :=
  c7_noop_after_full_transition.2 bk0 acpu_freq_tbl_8960_fusion_slow stRun 0
    2160000 Reason.SETRATE_PC (by decide) (by decide) (by decide)

theorem run_others_prev (bk : Rail → Nat → Int) (atbl : List AcpuLevel) :
    ∀ (ops : List (Nat × Nat × Reason)) (hs : HpState),
      (run_others bk atbl ops hs).prev_pri = hs.prev_pri ∧
      (run_others bk atbl ops hs).prev_sec = hs.prev_sec := by
  intro ops
  induction ops with
  | nil => intro hs; exact ⟨rfl, rfl⟩
  | cons op ops ih =>
    intro hs
    exact ih { hs with
      sys := (acpuclk_8960_set_rate bk atbl hs.sys op.1 op.2.1 op.2.2).1 }

theorem run_others_mux (bk : Rail → Nat → Int) (atbl : List AcpuLevel)
    (cpu : Nat) :
    ∀ (ops : List (Nat × Nat × Reason)) (hs : HpState),
      (∀ op ∈ ops, op.1 ≠ cpu) →
      (run_others bk atbl ops hs).sys.cpuMux cpu = hs.sys.cpuMux cpu := by
  intro ops
  induction ops with
  | nil => intro hs _; rfl
  | cons op ops ih =>
    intro hs hops
    have h2 : ∀ o ∈ ops, o.1 ≠ cpu := fun o ho => hops o (List.mem_cons_of_mem _ ho)
    show (run_others bk atbl ops
      { hs with sys := (acpuclk_8960_set_rate bk atbl hs.sys op.1 op.2.1 op.2.2).1 }).sys.cpuMux cpu
        = hs.sys.cpuMux cpu
    rw [ih _ h2]
    exact set_rate_cpuMux_frame bk atbl hs.sys op.1 op.2.1 op.2.2 cpu
      (Ne.symm (hops op (List.mem_cons_self _ _)))

/-- C8: a dying hotplug event parks the core's muxes on the QSB path; any
number of transitions issued by other cores leaves them parked; and the
starting event restores exactly the primary and secondary selections that
were captured at dying (the values the core had before the event). -/
theorem c8_hotplug_mux_roundtrip (bk : Rail → Nat → Int) (atbl : List AcpuLevel)
    (hs : HpState) (cpu : Nat) (ops : List (Nat × Nat × Reason))
    (hops : ∀ op ∈ ops, op.1 ≠ cpu) :
    (run_others bk atbl ops
      (acpuclock_cpu_callback bk atbl hs HpAction.dying cpu)).sys.cpuMux cpu =
      ⟨PRI_SRC_SEL_SEC_SRC, SEC_SRC_SEL_QSB⟩ ∧
    (acpuclock_cpu_callback bk atbl
      (run_others bk atbl ops (acpuclock_cpu_callback bk atbl hs HpAction.dying cpu))
      HpAction.starting cpu).sys.cpuMux cpu = hs.sys.cpuMux cpu := by
  have hdy : (acpuclock_cpu_callback bk atbl hs HpAction.dying cpu).sys.cpuMux cpu
      = ⟨PRI_SRC_SEL_SEC_SRC, SEC_SRC_SEL_QSB⟩ := by
    simp [acpuclock_cpu_callback, upd_same]
  have hprev := run_others_prev bk atbl ops
    (acpuclock_cpu_callback bk atbl hs HpAction.dying cpu)
  constructor
  · rw [run_others_mux bk atbl cpu ops _ hops, hdy]
  · have h1 := hprev.1
    have h2 := hprev.2
    simp only [acpuclock_cpu_callback, upd_same] at h1 h2 ⊢
    rw [h1, h2, upd_same, upd_same]

theorem c8_witness :
    (run_others bk0 acpu_freq_tbl_8960_fusion_slow
      [(1, 702000, Reason.SETRATE_CPUFREQ)]
      (acpuclock_cpu_callback bk0 acpu_freq_tbl_8960_fusion_slow hs0
        HpAction.dying 0)).sys.cpuMux 0 =
      ⟨PRI_SRC_SEL_SEC_SRC, SEC_SRC_SEL_QSB⟩ ∧
    (acpuclock_cpu_callback bk0 acpu_freq_tbl_8960_fusion_slow
      (run_others bk0 acpu_freq_tbl_8960_fusion_slow
        [(1, 702000, Reason.SETRATE_CPUFREQ)]
        (acpuclock_cpu_callback bk0 acpu_freq_tbl_8960_fusion_slow hs0
          HpAction.dying 0))
      HpAction.starting 0).sys.cpuMux 0 = hs0.sys.cpuMux 0 :=
  c8_hotplug_mux_roundtrip bk0 acpu_freq_tbl_8960_fusion_slow hs0 0
    [(1, 702000, Reason.SETRATE_CPUFREQ)] (by decide)

theorem find_max_aux :
    ∀ (l : List AcpuLevel) (acc : Option AcpuLevel),
      (∀ x, acc = some x → x.use_for_scaling = true ∧ x.speed.khz = 2160000) →
      ∀ x,
        l.foldl
          (fun acc l =>
            if l.use_for_scaling = true ∧ l.speed.khz = 2160000 then some l
            else acc)
          acc = some x →
        x.use_for_scaling = true ∧ x.speed.khz = 2160000 := by
  intro l
  induction l with
  | nil => intro acc hacc x hx; exact hacc x hx
  | cons t ts ih =>
    intro acc hacc x hx
    simp only [List.foldl_cons] at hx
    refine ih _ ?_ x hx
    intro y hy
    by_cases hc : t.use_for_scaling = true ∧ t.speed.khz = 2160000
    · rw [if_pos hc] at hy
      injection hy with hy
      exact hy ▸ hc
    · rw [if_neg hc] at hy
      exact hacc y hy

/-- C9 counterexample: with the custom maximum frequency configured to
1512000 kHz, the truncated slow table still has a highest usable operating
point (the 1512000 kHz entry), but select_freq_plan returns none — the scan
only accepts entries with khz == 2160000 (hardcoded), which the truncation
marked unusable, so the C driver hits BUG_ON(!max_acpu_level) instead of
returning the highest usable point. -/
theorem c9_counterexample :
    select_freq_plan acpu_freq_tbl_8960_fusion_slow false 1512000 = none ∧
    spec_highest_usable (apply_max_freq acpu_freq_tbl_8960_fusion_slow 1512000) =
      some ⟨true, ⟨1512000, HFPLL, 1, 0, 0x38⟩, 18, 1250000⟩ := by
  refine ⟨by decide, by decide⟩

/-- C9 amended: select_freq_plan only ever returns an operating point that
is usable for scaling and whose frequency is the hardcoded 2160000 kHz; when
no truncation is configured this coincides with the highest usable operating
point of each of the three tables (2160000 kHz is every table's last and
highest entry); a truncation below 2160000 kHz leaves the scan without a
result (fatal BUG in the driver). -/
theorem c9_select_freq_plan :
    (∀ (tbl : List AcpuLevel) (vmin : Bool) (maxf : Nat) (x : AcpuLevel),
      select_freq_plan tbl vmin maxf = some x →
      x.use_for_scaling = true ∧ x.speed.khz = 2160000) ∧
    select_freq_plan acpu_freq_tbl_8960_fusion_slow false 0 =
      spec_highest_usable acpu_freq_tbl_8960_fusion_slow ∧
    select_freq_plan acpu_freq_tbl_8960_fusion_nom false 0 =
      spec_highest_usable acpu_freq_tbl_8960_fusion_nom ∧
    select_freq_plan acpu_freq_tbl_8960_fusion_fast false 0 =
      spec_highest_usable acpu_freq_tbl_8960_fusion_fast := by
  refine ⟨?_, by decide, by decide, by decide⟩
  intro tbl vmin maxf x hx
  unfold select_freq_plan find_max_acpu_level at hx
  exact find_max_aux _ none (fun y hy => by cases hy) x hx

theorem c9_witness :
    maxSlow.use_for_scaling = true ∧ maxSlow.speed.khz = 2160000 :=
  c9_select_freq_plan.1 acpu_freq_tbl_8960_fusion_slow false 0 maxSlow (by decide)

end Acpu8960
